import Mathlib

/-!
Shallow embedding of `src/streamer.py` (a 24/7 streaming supervisor) and
verification of its specification claims.

The embedding follows the Python source function by function:
* `qualities`, `resolveQuality` — the quality preset table and the
  `self.qualities.get(label, self.qualities["720p"])` lookup in `__init__`.
* `build_ffmpeg_command` — the command builder.
* `initStreamer` — the environment validation in `__init__`.
* `download_video` — the asset check/fetch, over an abstract filesystem
  (size of the one canonical file) and an abstract fetch behaviour.
* `monitor_output` — the inner output-monitoring `for` loop of
  `start_streaming` (lines 209-228), over a timed trace of child output.
* `start_streaming_loop` — the outer `while True` retry loop of
  `start_streaming` (lines 189-259), over a list of per-attempt results.
* `runProgram` — the composition `__init__` / `check_ffmpeg` /
  `download_video` / retry loop, tracking spawns and network requests.
-/

namespace Streamer

/-- One entry of the quality preset table: frame size, bitrate string
(as stored in the Python dict, e.g. "2500k"), frames per second. -/
structure QualitySettings where
  size : String
  bitrate : String
  fps : Nat
deriving DecidableEq, Repr

/-- The `self.qualities` dict of `__init__` (lines 41-46). -/
def qualities : List (String × QualitySettings) :=
  [("360p", ⟨"640x360", "800k", 25⟩),
   ("480p", ⟨"854x480", "1200k", 25⟩),
   ("720p", ⟨"1280x720", "2500k", 30⟩),
   ("1080p", ⟨"1920x1080", "4500k", 30⟩)]

/-- Lookup `self.qualities.get(self.video_quality, self.qualities["720p"])`
(line 48).  The inner `getD` default is unreachable because "720p" is a
key of the table. -/
def resolveQuality (label : String) : QualitySettings :=
  (qualities.lookup label).getD ((qualities.lookup "720p").getD ⟨"1280x720", "2500k", 30⟩)

/-- The decimal value Python `int` gives to an all-digit string, on the
character list of the string.  (`int` raises on other strings; every
bitrate in the preset table is digits followed by "k", so only the
all-digit case is ever reached at line 138.) -/
def pyInt (cs : List Char) : Nat :=
  cs.foldl (fun n c => n * 10 + (c.toNat - 48)) 0

/-- The bitrate-string arithmetic of line 138:
`f-string of int(self.settings["bitrate"][:-1]) * 2 followed by "k"` —
slice off the final character, parse as decimal, double, re-append
"k". -/
def bufsizeOf (bitrate : String) : String :=
  toString (pyInt bitrate.data.dropLast * 2) ++ "k"

/-- Function `build_ffmpeg_command` (lines 125-161), parameterised by the pieces of
`self` it reads. -/
def build_ffmpeg_command (video_file : String) (settings : QualitySettings)
    (rtmp_url : String) : List String :=
  ["ffmpeg",
   "-re",
   "-stream_loop", "-1",
   "-i", video_file,
   "-c:v", "libx264",
   "-preset", "veryfast",
   "-b:v", settings.bitrate,
   "-maxrate", settings.bitrate,
   "-bufsize", bufsizeOf settings.bitrate,
   "-s", settings.size,
   "-r", toString settings.fps,
   "-g", toString (settings.fps * 2),
   "-pix_fmt", "yuv420p",
   "-c:a", "aac",
   "-b:a", "128k",
   "-ar", "44100",
   "-ac", "2",
   "-f", "flv",
   "-flvflags", "no_duration_filesize",
   "-reconnect", "1",
   "-reconnect_streamed", "1",
   "-reconnect_delay_max", "5",
   rtmp_url]

/-- The environment variables read in `__init__` (lines 22-24); `none`
models an unset variable. -/
structure Env where
  youtube_stream_key : Option String
  video_url : Option String
  video_quality : Option String
deriving DecidableEq, Repr

/-- Python truthiness of an optional string: `None` and the empty string
are falsy (`if not self.stream_key`). -/
def truthyStr (s : Option String) : Option String :=
  match s with
  | none => none
  | some v => if v = "" then none else some v

/-- The configuration built by a successful `__init__`. -/
structure Config where
  stream_key : String
  video_url : String
  video_quality : String
  rtmp_url : String
  settings : QualitySettings
deriving DecidableEq, Repr

/-- Constructor `__init__` (lines 22-48): validate the two required variables
(`sys.exit(1)` if absent, modelled as `.error 1`), default the quality
label to "720p", build the RTMP URL and resolve the preset. -/
def initStreamer (env : Env) : Except Nat Config :=
  match truthyStr env.youtube_stream_key with
  | none => .error 1
  | some key =>
    match truthyStr env.video_url with
    | none => .error 1
    | some url =>
      let quality := env.video_quality.getD "720p"
      .ok ⟨key, url, quality, "rtmp://a.rtmp.youtube.com/live2/" ++ key,
           resolveQuality quality⟩

/-- Abstract behaviour of the HTTP fetch in `download_video`:
either every chunk arrives (`success`), or `requests.get` itself raises
before the file is opened (`failBeforeWrite`), or the transfer raises
after some chunks were already written to the open file (`failDuring`).
Chunks are byte counts. -/
inductive FetchBehavior
  | success (chunks : List Nat)
  | failBeforeWrite
  | failDuring (chunks : List Nat)
deriving DecidableEq, Repr

deriving instance DecidableEq for Except

/-- Result of one `download_video` call: the control-flow outcome
(`.error c` models `sys.exit(c)`, `.ok p` the returned path), the number
of network requests performed, and the size of the file at the canonical
path afterwards (`none` when no file exists). -/
structure DownloadResult where
  outcome : Except Nat String
  network : Nat
  fsAfter : Option Nat
deriving DecidableEq, Repr

/-- Method `download_video` (lines 66-108) over an abstract filesystem: `fs` is
the size of "stream_video.mp4" when it exists.  Line 72 tests only
`os.path.exists` — presence, not size.  On a mid-transfer failure the
chunks already written stay on disk and the program exits 1. -/
def download_video (fs : Option Nat) (fetch : FetchBehavior) : DownloadResult :=
  match fs with
  | some sz => ⟨.ok "stream_video.mp4", 0, some sz⟩
  | none =>
    match fetch with
    | .success chunks => ⟨.ok "stream_video.mp4", 1, some chunks.sum⟩
    | .failBeforeWrite => ⟨.error 1, 1, none⟩
    | .failDuring chunks => ⟨.error 1, 1, some chunks.sum⟩

/-- The substring test `pat in line` of Python, on the underlying
character lists. -/
def strContains (s pat : String) : Bool :=
  (List.range (s.data.length + 1)).any
    (fun i => (s.data.drop i).take pat.data.length == pat.data)

/-- Line 214: `"frame=" in line or "speed=" in line`. -/
def isProgressLine (line : String) : Bool :=
  strContains line "frame=" || strContains line "speed="

/-- How one pass through the monitoring `for` loop of lines 211-228 can
end, seen from the outside. -/
inductive MonOutcome
  /-- call `readline` returned "" at EOF after the child exited: the `for`
  loop ends normally. -/
  | exitedEOF
  /-- call `poll()` observed the exit right after a line was read (line 221),
  at the given time. -/
  | exitedPolled (t : Nat)
  /-- the 120-second no-output check of line 225 fired after the line
  read at the given time, and the child was terminated. -/
  | stalledTerminated (t : Nat)
  /-- call to `readline` blocks with no further output and a child that never
  exits: no iteration of the loop body ever runs again. -/
  | blockedForever
deriving DecidableEq, Repr

/-- The monitoring `for` loop of `start_streaming` (lines 209-228).
The child is modelled by a time-stamped list of output lines (times
nondecreasing, all before the exit time when there is one) and an
optional exit time.  `readline` blocks until the next line arrives; the
liveness poll and the stall check run only after a line has been read,
exactly as in the source.  `lastOut` is `last_output_time`; the stall
comparison is the strict `time.time() - last_output_time > 120` of line
225 with `stallTimeout = 120`. -/
def monitor_output (stallTimeout : Nat) (exitAt : Option Nat) :
    List (Nat × String) → Nat → MonOutcome
  | [], _ =>
    match exitAt with
    | some _ => .exitedEOF
    | none => .blockedForever
  | (t, line) :: rest, lastOut =>
    let lastOut2 := if isProgressLine line then t else lastOut
    match exitAt with
    | some te =>
      if te ≤ t then .exitedPolled t
      else if stallTimeout < t - lastOut2 then .stalledTerminated t
      else monitor_output stallTimeout exitAt rest lastOut2
    | none =>
      if stallTimeout < t - lastOut2 then .stalledTerminated t
      else monitor_output stallTimeout exitAt rest lastOut2

/-- How one attempt of the outer `while True` loop ends:
the child exited with a code, the stall path terminated it, `Popen`
raised (the `except Exception` branch), or a `KeyboardInterrupt`
arrived. -/
inductive AttemptResult
  | exited (code : Int)
  | stalled
  | spawnError
  | interrupted
deriving DecidableEq, Repr

/-- Why the loop stopped: the `retry_count >= max_retries` break, the
`KeyboardInterrupt` break, or the supplied attempt trace ran out while
the loop was still set to continue (a model artifact standing for "the
loop keeps running"). -/
inductive StopReason
  | maxedOut
  | interrupted
  | fuelOut
deriving DecidableEq, Repr

/-- The sleep executed after a non-final failed attempt:
`min(retry_count * 5, 30)` on the classified path (line 243), a fixed
10 seconds in the `except Exception` branch (line 259).  `rcAfter` is
`retry_count` after the increment. -/
def retryDelay (o : AttemptResult) (rcAfter : Nat) : Nat :=
  match o with
  | .spawnError => 10
  | _ => min (rcAfter * 5) 30

/-- Constant `max_retries = 50` (line 190). -/
def max_retries : Nat := 50

/-- Observable trace of the `while True` loop: `retry_count` as it stood
before each `Popen` call, the sleeps executed between attempts, the
final `retry_count`, why the loop stopped, and the process exit status
(the function falls through to the end of `main`, so 0 on every real
stop). -/
structure RunResult where
  rcsBeforeSpawn : List Nat
  sleeps : List Nat
  finalRc : Nat
  reason : StopReason
  exitStatus : Nat
deriving DecidableEq, Repr

/-- The `while True` retry loop of `start_streaming` (lines 189-259),
driven by a list of per-attempt results.  Every attempt spawns (or
tries to spawn) once; then `retry_count` is incremented and compared to
`max_retries`, and on continuation the loop sleeps `retryDelay` before
the next spawn.  A `KeyboardInterrupt` breaks without incrementing. -/
def start_streaming_loop (maxR : Nat) : Nat → List AttemptResult → RunResult
  | rc, [] => ⟨[], [], rc, .fuelOut, 0⟩
  | rc, o :: rest =>
    if o = .interrupted then ⟨[rc], [], rc, .interrupted, 0⟩
    else if maxR ≤ rc + 1 then ⟨[rc], [], rc + 1, .maxedOut, 0⟩
    else
      let r := start_streaming_loop maxR (rc + 1) rest
      ⟨rc :: r.rcsBeforeSpawn, retryDelay o (rc + 1) :: r.sleeps,
       r.finalRc, r.reason, r.exitStatus⟩

/-- Whole-program observables: exit status, number of streaming-child
spawn attempts, number of network requests. -/
structure ProgramResult where
  exitStatus : Nat
  spawnAttempts : Nat
  network : Nat
deriving DecidableEq, Repr

/-- Composition of `main` and `start_streaming`: `__init__` validation, the
`check_ffmpeg` preflight (`ffmpegOk`; on failure `sys.exit(1)` at line
169, before any streaming spawn), `download_video`, then the retry
loop. -/
def runProgram (env : Env) (ffmpegOk : Bool) (fs : Option Nat)
    (fetch : FetchBehavior) (outcomes : List AttemptResult) : ProgramResult :=
  match initStreamer env with
  | .error c => ⟨c, 0, 0⟩
  | .ok _cfg =>
    if ffmpegOk = false then ⟨1, 0, 0⟩
    else
      let d := download_video fs fetch
      match d.outcome with
      | .error c => ⟨c, 0, d.network⟩
      | .ok _path =>
        let r := start_streaming_loop max_retries 0 outcomes
        ⟨r.exitStatus, r.rcsBeforeSpawn.length, d.network⟩

/-- Modelled from the spec: the outcome taxonomy `NormalExit` /
`ErrorExit` over a child exit code.  The source records only the raw
`return_code` (line 231) and treats every exit identically; the spec
names an exit with code 0 `NormalExit` and any other `ErrorExit`. -/
inductive Outcome
  | NormalExit (code : Int)
  | ErrorExit (code : Int)
  | Stalled
  | SignalStopped
deriving DecidableEq, Repr

/-- Modelled from the spec: classification of an observed exit code. -/
def classify_exit (code : Int) : Outcome :=
  if code = 0 then .NormalExit code else .ErrorExit code

/-- A quality label that is not a key of the table resolves to the 720p
default. -/
theorem resolveQuality_unknown (label : String)
    (h1 : label ≠ "360p") (h2 : label ≠ "480p")
    (h3 : label ≠ "720p") (h4 : label ≠ "1080p") :
    resolveQuality label = ⟨"1280x720", "2500k", 30⟩ := by
  have e1 : (label == "360p") = false := beq_eq_false_iff_ne.mpr h1
  have e2 : (label == "480p") = false := beq_eq_false_iff_ne.mpr h2
  have e3 : (label == "720p") = false := beq_eq_false_iff_ne.mpr h3
  have e4 : (label == "1080p") = false := beq_eq_false_iff_ne.mpr h4
  unfold resolveQuality qualities
  simp [List.lookup, e1, e2, e3, e4]

/-- Every resolved profile is one of the four table entries. -/
theorem resolveQuality_mem (label : String) :
    resolveQuality label = ⟨"640x360", "800k", 25⟩ ∨
    resolveQuality label = ⟨"854x480", "1200k", 25⟩ ∨
    resolveQuality label = ⟨"1280x720", "2500k", 30⟩ ∨
    resolveQuality label = ⟨"1920x1080", "4500k", 30⟩ := by
  by_cases h1 : label = "360p"
  · exact Or.inl (by rw [h1]; decide)
  by_cases h2 : label = "480p"
  · exact Or.inr (Or.inl (by rw [h2]; decide))
  by_cases h3 : label = "720p"
  · exact Or.inr (Or.inr (Or.inl (by rw [h3]; decide)))
  by_cases h4 : label = "1080p"
  · exact Or.inr (Or.inr (Or.inr (by rw [h4]; decide)))
  · exact Or.inr (Or.inr (Or.inl (resolveQuality_unknown label h1 h2 h3 h4)))

/-- When every supplied attempt result is a failure (no interrupt) and
there are at least enough of them, the loop runs exactly until
`retry_count` reaches `maxR`, every pre-spawn `retry_count` is below
`maxR`, and it stops with the max-retries break and status 0. -/
theorem loop_maxed (maxR : Nat) :
    ∀ (outcomes : List AttemptResult) (rc : Nat),
      (∀ o ∈ outcomes, o ≠ AttemptResult.interrupted) → rc < maxR →
      maxR ≤ rc + outcomes.length →
      (start_streaming_loop maxR rc outcomes).rcsBeforeSpawn.length = maxR - rc ∧
      (∀ x ∈ (start_streaming_loop maxR rc outcomes).rcsBeforeSpawn, x < maxR) ∧
      (start_streaming_loop maxR rc outcomes).reason = StopReason.maxedOut ∧
      (start_streaming_loop maxR rc outcomes).exitStatus = 0 := by
  intro outcomes
  induction outcomes with
  | nil =>
    intro rc hf hrc hlen
    simp only [List.length_nil, Nat.add_zero] at hlen
    omega
  | cons o rest ih =>
    intro rc hf hrc hlen
    have ho : ¬ o = AttemptResult.interrupted := hf o (List.mem_cons_self o rest)
    by_cases hm : maxR ≤ rc + 1
    · have heq : start_streaming_loop maxR rc (o :: rest) =
          ⟨[rc], [], rc + 1, StopReason.maxedOut, 0⟩ := by
        simp [start_streaming_loop, if_neg ho, if_pos hm]
      rw [heq]
      refine ⟨by simp; omega, ?_, rfl, rfl⟩
      intro x hx
      simp at hx
      omega
    · have heq : start_streaming_loop maxR rc (o :: rest) =
          ⟨rc :: (start_streaming_loop maxR (rc + 1) rest).rcsBeforeSpawn,
           retryDelay o (rc + 1) :: (start_streaming_loop maxR (rc + 1) rest).sleeps,
           (start_streaming_loop maxR (rc + 1) rest).finalRc,
           (start_streaming_loop maxR (rc + 1) rest).reason,
           (start_streaming_loop maxR (rc + 1) rest).exitStatus⟩ := by
        simp [start_streaming_loop, if_neg ho, if_neg hm]
      rw [heq]
      have hrest := ih (rc + 1)
        (fun o2 h2 => hf o2 (List.mem_cons_of_mem o h2))
        (by omega)
        (by simp only [List.length_cons] at hlen; omega)
      obtain ⟨hl, hmem, hr, he⟩ := hrest
      refine ⟨by simp [hl]; omega, ?_, hr, he⟩
      intro x hx
      simp only [List.mem_cons] at hx
      rcases hx with rfl | hx
      · omega
      · exact hmem x hx

/-- Positional characterisation of the sleeps executed by the loop: the
i-th sleep (0-based) follows the (i+1)-th attempt and equals
`retryDelay` of that attempt at the incremented retry count. -/
theorem loop_sleeps_spec (maxR : Nat) :
    ∀ (outcomes : List AttemptResult) (rc i d : Nat),
      (start_streaming_loop maxR rc outcomes).sleeps[i]? = some d →
      ∃ o, outcomes[i]? = some o ∧ d = retryDelay o (rc + i + 1) := by
  intro outcomes
  induction outcomes with
  | nil =>
    intro rc i d h
    simp [start_streaming_loop] at h
  | cons o rest ih =>
    intro rc i d h
    by_cases ho : o = AttemptResult.interrupted
    · simp [start_streaming_loop, if_pos ho] at h
    by_cases hm : maxR ≤ rc + 1
    · simp [start_streaming_loop, if_neg ho, if_pos hm] at h
    · simp only [start_streaming_loop, if_neg ho, if_neg hm] at h
      cases i with
      | zero =>
        simp only [List.getElem?_cons_zero, Option.some_inj] at h
        exact ⟨o, by simp, h.symm⟩
      | succ j =>
        simp only [List.getElem?_cons_succ] at h
        obtain ⟨o2, ho2, hd⟩ := ih (rc + 1) j d h
        refine ⟨o2, by simpa using ho2, ?_⟩
        rw [hd]
        congr 1
        omega

/-- C1: the claim says a child that stops producing output but stays
alive is forcibly terminated within the stall timeout (120s) plus one
tick, because the monitoring loop never blocks on reading child output
longer than a short slice.  Evaluating the monitoring loop of lines
209-228 on such a child — one progress line at time 0, then silence
forever, never exiting — shows the loop blocks forever inside
`readline`: the stall check of line 225 runs only after a line has been
read, so the child is never terminated and no stall is recorded. -/
theorem c1_silent_child_never_stalled :
    monitor_output 120 none [(0, "frame=1 fps=30 speed=1x")] 0 =
      MonOutcome.blockedForever := by decide

/-- C2: with `max_retries = 50`, any run of at least 50 consecutive
failed (non-interrupted) attempts spawns exactly 50 times, stops via the
max-retries break with exit status 0, and `retry_count` is at most
`max_retries` before every spawn. -/
theorem c2_fifty_failures_stop_at_fifty (outcomes : List AttemptResult)
    (hfail : ∀ o ∈ outcomes, o ≠ AttemptResult.interrupted)
    (hlen : 50 ≤ outcomes.length) :
    (start_streaming_loop max_retries 0 outcomes).rcsBeforeSpawn.length = 50 ∧
    (start_streaming_loop max_retries 0 outcomes).reason = StopReason.maxedOut ∧
    (start_streaming_loop max_retries 0 outcomes).exitStatus = 0 ∧
    ∀ x ∈ (start_streaming_loop max_retries 0 outcomes).rcsBeforeSpawn,
      x ≤ max_retries := by
  have h := loop_maxed max_retries outcomes 0 hfail
    (by simp [max_retries]) (by simpa [max_retries] using hlen)
  obtain ⟨hl, hmem, hr, he⟩ := h
  exact ⟨by simpa [max_retries] using hl, hr, he,
    fun x hx => le_of_lt (hmem x hx)⟩

/-- Witness for C2 at 50 consecutive error exits. -/
theorem c2_witness :
    (start_streaming_loop max_retries 0
        (List.replicate 50 (AttemptResult.exited 1))).rcsBeforeSpawn.length = 50 ∧
    (start_streaming_loop max_retries 0
        (List.replicate 50 (AttemptResult.exited 1))).reason = StopReason.maxedOut ∧
    (start_streaming_loop max_retries 0
        (List.replicate 50 (AttemptResult.exited 1))).exitStatus = 0 ∧
    ∀ x ∈ (start_streaming_loop max_retries 0
        (List.replicate 50 (AttemptResult.exited 1))).rcsBeforeSpawn,
      x ≤ max_retries :=
  c2_fifty_failures_stop_at_fifty (List.replicate 50 (AttemptResult.exited 1))
    (by decide) (by decide)

/-- C3 counterexample: the claim says the delay after attempt n is
min(n*5, 30) regardless of how the attempt failed, including spawn
errors after the first attempt.  With attempts 1 and 2 failing as error
exits and attempt 3 failing as a spawn error, the delay after attempt 3
is the fixed 10 seconds of the `except` branch (line 259), not
min(3*5, 30) = 15. -/
theorem c3_counterexample :
    (start_streaming_loop max_retries 0
        [AttemptResult.exited 1, AttemptResult.exited 1,
         AttemptResult.spawnError, AttemptResult.exited 1]).sleeps[2]? = some 10 ∧
    ¬ (start_streaming_loop max_retries 0
        [AttemptResult.exited 1, AttemptResult.exited 1,
         AttemptResult.spawnError, AttemptResult.exited 1]).sleeps[2]? =
      some (min (3 * 5) 30) := by decide

/-- C3 amended: the delay slept after attempt n (0-based index i,
n = i + 1) is min(n*5, 30) seconds for attempts that end in a classified
exit or stall, and a fixed 10 seconds for attempts that fail with a
spawn error. -/
theorem c3_backoff_amended (outcomes : List AttemptResult) (i d : Nat)
    (h : (start_streaming_loop max_retries 0 outcomes).sleeps[i]? = some d) :
    ∃ o, outcomes[i]? = some o ∧
      d = (if o = AttemptResult.spawnError then 10 else min ((i + 1) * 5) 30) := by
  obtain ⟨o, ho, hd⟩ := loop_sleeps_spec max_retries outcomes 0 i d h
  refine ⟨o, ho, ?_⟩
  rw [hd]
  cases o <;> simp [retryDelay]

/-- Witness for C3 amended: one error-exit attempt, delay 5. -/
theorem c3_witness :
    ∃ o, ([AttemptResult.exited 1, AttemptResult.exited 1])[0]? = some o ∧
      (5 : Nat) = (if o = AttemptResult.spawnError then 10
                   else min ((0 + 1) * 5) 30) :=
  c3_backoff_amended [AttemptResult.exited 1, AttemptResult.exited 1] 0 5
    (by decide)

/-- C4 counterexample: the claim says a spawn error with attemptCount 0
terminates the whole program immediately with a non-zero status instead
of entering the retry path.  In the code the `except Exception` branch
has no attemptCount-0 case: a first-attempt spawn error increments the
count, sleeps the fixed 10 seconds, and the loop spawns again; the run
ends with status 0. -/
theorem c4_counterexample :
    (start_streaming_loop max_retries 0
        [AttemptResult.spawnError, AttemptResult.exited 1]).rcsBeforeSpawn = [0, 1] ∧
    (start_streaming_loop max_retries 0
        [AttemptResult.spawnError, AttemptResult.exited 1]).sleeps = [10, 10] ∧
    (start_streaming_loop max_retries 0
        [AttemptResult.spawnError, AttemptResult.exited 1]).exitStatus = 0 := by
  decide

/-- C4 amended: a missing or broken ffmpeg executable is caught by the
`check_ffmpeg` preflight, which exits the program with status 1 before
any streaming spawn and before any network access; errors raised while
spawning inside the loop, on any attempt including the first, drive the
retry path with a fixed 10-second sleep. -/
theorem c4_spawn_error_amended (env : Env) (cfg : Config) (fs : Option Nat)
    (fetch : FetchBehavior) (outcomes : List AttemptResult)
    (hinit : initStreamer env = Except.ok cfg) :
    runProgram env false fs fetch outcomes = ⟨1, 0, 0⟩ ∧
    (start_streaming_loop max_retries 0
        (AttemptResult.spawnError :: outcomes)).sleeps[0]? = some 10 := by
  constructor
  · unfold runProgram
    rw [hinit]
    rfl
  · have heq : start_streaming_loop max_retries 0
        (AttemptResult.spawnError :: outcomes) =
        ⟨0 :: (start_streaming_loop max_retries 1 outcomes).rcsBeforeSpawn,
         10 :: (start_streaming_loop max_retries 1 outcomes).sleeps,
         (start_streaming_loop max_retries 1 outcomes).finalRc,
         (start_streaming_loop max_retries 1 outcomes).reason,
         (start_streaming_loop max_retries 1 outcomes).exitStatus⟩ := by
      simp [start_streaming_loop, max_retries, retryDelay]
    rw [heq]
    simp

/-- Witness for C4 amended. -/
theorem c4_witness :
    runProgram ⟨some "k", some "u", none⟩ false none
        FetchBehavior.failBeforeWrite [] = ⟨1, 0, 0⟩ ∧
    (start_streaming_loop max_retries 0
        (AttemptResult.spawnError :: [])).sleeps[0]? = some 10 :=
  c4_spawn_error_amended ⟨some "k", some "u", none⟩
    ⟨"k", "u", "720p", "rtmp://a.rtmp.youtube.com/live2/k",
     resolveQuality "720p"⟩
    none FetchBehavior.failBeforeWrite [] (by decide)

/-- The property the C5 claim demands of the cached file: present and
non-empty. -/
def existsNonEmpty (fs : Option Nat) : Prop := ∃ sz, fs = some sz ∧ 0 < sz

/-- C5 counterexample: the claim says `download_video` returns the path
immediately with zero network requests if and only if the file exists
AND is non-empty.  Line 72 tests only `os.path.exists`: with an empty
(zero-byte) file present, the call still returns immediately with zero
network requests, although the file is not non-empty. -/
theorem c5_counterexample :
    (download_video (some 0) (FetchBehavior.success [1])).network = 0 ∧
    (download_video (some 0) (FetchBehavior.success [1])).outcome =
      Except.ok "stream_video.mp4" ∧
    ¬ existsNonEmpty (some 0) := by
  refine ⟨rfl, rfl, ?_⟩
  rintro ⟨sz, hs, hpos⟩
  simp at hs
  omega

/-- C5 amended: `download_video` returns the canonical path immediately
with zero network requests if and only if a file at that path exists,
regardless of its size (presence only, emptiness is not checked); every
call without the file performs exactly one network request. -/
theorem c5_existing_file_amended :
    (∀ (sz : Nat) (fetch : FetchBehavior),
      download_video (some sz) fetch =
        ⟨Except.ok "stream_video.mp4", 0, some sz⟩) ∧
    (∀ fetch : FetchBehavior, (download_video none fetch).network = 1) := by
  constructor
  · intro sz fetch
    rfl
  · intro fetch
    cases fetch <;> rfl

/-- C6: a child exit with code 0 on the first attempt is classified
`NormalExit`; the loop counts it as an attempt (`retry_count` becomes
1), sleeps the 5-second backoff, and spawns again rather than stopping
(the second spawn, at retry count 1, is visible in the trace). -/
theorem c6_clean_exit_continues :
    classify_exit 0 = Outcome.NormalExit 0 ∧
    start_streaming_loop max_retries 0
        [AttemptResult.exited 0, AttemptResult.interrupted] =
      ⟨[0, 1], [5], 1, StopReason.interrupted, 0⟩ := by decide

/-- C7: the command builder is a pure function — identical inputs give
identical argument lists — and in the built list the `-bufsize` value is
twice the numeric target bitrate, the `-g` keyframe interval is twice
the frame rate, and the destination URL is the final argument. -/
theorem c7_command_builder (v1 v2 l1 l2 r1 r2 : String)
    (hv : v1 = v2) (hl : l1 = l2) (hr : r1 = r2) :
    build_ffmpeg_command v1 (resolveQuality l1) r1 =
      build_ffmpeg_command v2 (resolveQuality l2) r2 ∧
    (∃ n : Nat, (resolveQuality l1).bitrate = toString n ++ "k" ∧
      (build_ffmpeg_command v1 (resolveQuality l1) r1)[14]? = some "-bufsize" ∧
      (build_ffmpeg_command v1 (resolveQuality l1) r1)[15]? =
        some (toString (2 * n) ++ "k")) ∧
    (build_ffmpeg_command v1 (resolveQuality l1) r1)[20]? = some "-g" ∧
    (build_ffmpeg_command v1 (resolveQuality l1) r1)[21]? =
      some (toString (2 * (resolveQuality l1).fps)) ∧
    (build_ffmpeg_command v1 (resolveQuality l1) r1).getLast? = some r1 := by
  subst hv
  subst hl
  subst hr
  rcases resolveQuality_mem l1 with h | h | h | h <;> rw [h] <;>
    first
    | exact ⟨rfl, ⟨800, rfl, rfl, rfl⟩, rfl, rfl, rfl⟩
    | exact ⟨rfl, ⟨1200, rfl, rfl, rfl⟩, rfl, rfl, rfl⟩
    | exact ⟨rfl, ⟨2500, rfl, rfl, rfl⟩, rfl, rfl, rfl⟩
    | exact ⟨rfl, ⟨4500, rfl, rfl, rfl⟩, rfl, rfl, rfl⟩

/-- Witness for C7 at concrete inputs. -/
theorem c7_witness :
    build_ffmpeg_command "v.mp4" (resolveQuality "720p") "rtmp://x" =
      build_ffmpeg_command "v.mp4" (resolveQuality "720p") "rtmp://x" ∧
    (∃ n : Nat, (resolveQuality "720p").bitrate = toString n ++ "k" ∧
      (build_ffmpeg_command "v.mp4" (resolveQuality "720p") "rtmp://x")[14]? =
        some "-bufsize" ∧
      (build_ffmpeg_command "v.mp4" (resolveQuality "720p") "rtmp://x")[15]? =
        some (toString (2 * n) ++ "k")) ∧
    (build_ffmpeg_command "v.mp4" (resolveQuality "720p") "rtmp://x")[20]? =
      some "-g" ∧
    (build_ffmpeg_command "v.mp4" (resolveQuality "720p") "rtmp://x")[21]? =
      some (toString (2 * (resolveQuality "720p").fps)) ∧
    (build_ffmpeg_command "v.mp4" (resolveQuality "720p") "rtmp://x").getLast? =
      some "rtmp://x" :=
  c7_command_builder "v.mp4" "v.mp4" "720p" "720p" "rtmp://x" "rtmp://x"
    rfl rfl rfl

/-- C8: the label "720p" resolves to the 1280x720 / 2500k / 30 fps
profile, whose keyframe interval argument in the built command is 60;
any label outside the preset table resolves to the same default 720p
profile instead of failing. -/
theorem c8_resolve_quality (label : String)
    (h : ¬ (label = "360p" ∨ label = "480p" ∨ label = "720p" ∨
            label = "1080p")) :
    resolveQuality "720p" = ⟨"1280x720", "2500k", 30⟩ ∧
    (build_ffmpeg_command "v" (resolveQuality "720p") "r")[21]? =
      some (toString 60) ∧
    resolveQuality label = ⟨"1280x720", "2500k", 30⟩ := by
  push_neg at h
  obtain ⟨h1, h2, h3, h4⟩ := h
  exact ⟨by decide, by decide, resolveQuality_unknown label h1 h2 h3 h4⟩

/-- Witness for C8 with the unknown label "4k". -/
theorem c8_witness :
    resolveQuality "720p" = ⟨"1280x720", "2500k", 30⟩ ∧
    (build_ffmpeg_command "v" (resolveQuality "720p") "r")[21]? =
      some (toString 60) ∧
    resolveQuality "4k" = ⟨"1280x720", "2500k", 30⟩ :=
  c8_resolve_quality "4k" (by decide)

/-- C9: if the stream key or the video URL environment variable is
absent, the program exits with status 1 having performed zero spawn
attempts and zero network requests. -/
theorem c9_missing_config (env : Env) (ffmpegOk : Bool) (fs : Option Nat)
    (fetch : FetchBehavior) (outcomes : List AttemptResult)
    (h : env.youtube_stream_key = none ∨ env.video_url = none) :
    runProgram env ffmpegOk fs fetch outcomes = ⟨1, 0, 0⟩ := by
  obtain ⟨k, u, q⟩ := env
  rcases h with h | h
  · have hk : k = none := h
    subst hk
    rfl
  · have hu : u = none := h
    subst hu
    cases k with
    | none => rfl
    | some s =>
      by_cases hs : s = ""
      · simp [runProgram, initStreamer, truthyStr, hs]
      · simp [runProgram, initStreamer, truthyStr, hs]

/-- Witness for C9 with the stream key absent. -/
theorem c9_witness :
    runProgram ⟨none, some "u", none⟩ true none
        (FetchBehavior.success []) [] = ⟨1, 0, 0⟩ :=
  c9_missing_config ⟨none, some "u", none⟩ true none
    (FetchBehavior.success []) [] (Or.inl rfl)

/-- C10: when the fetch fails after writing some chunks, the program
exits with status 1, zero spawns and one network request, and the
partial file (of exactly the bytes written, possibly even zero) stays at
the canonical path; a later run finds the file by the presence-only
check of line 72 and returns it with zero network requests, whatever its
size. -/
theorem c10_partial_file_cached (chunks : List Nat)
    (fetch2 : FetchBehavior) (outcomes : List AttemptResult) :
    runProgram ⟨some "k", some "u", none⟩ true none
        (FetchBehavior.failDuring chunks) outcomes = ⟨1, 0, 1⟩ ∧
    (download_video none (FetchBehavior.failDuring chunks)).outcome =
      Except.error 1 ∧
    (download_video none (FetchBehavior.failDuring chunks)).fsAfter =
      some chunks.sum ∧
    download_video (some chunks.sum) fetch2 =
      ⟨Except.ok "stream_video.mp4", 0, some chunks.sum⟩ :=
  ⟨rfl, rfl, rfl, rfl⟩

end Streamer
